import Mathlib

/-!
Verification of the hotel-reservations model-training workflow
(`models_training_and_evaluation.ipynb` and the helper modules it imports).

Labels and binary predictions are booleans, probabilities and metric values
are rationals, and data frames are lists.  Functions defined in the notebook
are translated directly; the sklearn metric functions it calls are embedded
from their documented semantics (confusion-matrix formulas with
`zero_division=0`).  Helper functions that live in the repository's
`src/eda.py` / `src/model_training.py` (absent from the snapshot) are
modelled from the spec, and each such definition says so in its doc comment.
-/

/-! ## Confusion-matrix counts and sklearn metric functions -/

/-- True positives: positions where the label and the prediction are both 1. -/
def countTP (y yp : List Bool) : Nat :=
  ((y.zip yp).filter (fun p => p.1 && p.2)).length

/-- False positives: label 0, prediction 1. -/
def countFP (y yp : List Bool) : Nat :=
  ((y.zip yp).filter (fun p => !p.1 && p.2)).length

/-- False negatives: label 1, prediction 0. -/
def countFN (y yp : List Bool) : Nat :=
  ((y.zip yp).filter (fun p => p.1 && !p.2)).length

/-- True negatives: label 0, prediction 0. -/
def countTN (y yp : List Bool) : Nat :=
  ((y.zip yp).filter (fun p => !p.1 && !p.2)).length

/-- Embedding of sklearn `precision_score(y, y_pred, zero_division=0)`:
TP/(TP+FP), and 0 when no sample is predicted positive. -/
def precision_score (y yp : List Bool) : ℚ :=
  let tp := countTP y yp
  let fp := countFP y yp
  if tp + fp = 0 then 0 else (tp : ℚ) / ((tp : ℚ) + (fp : ℚ))

/-- Embedding of sklearn `recall_score(y, y_pred, zero_division=0)`:
TP/(TP+FN), and 0 when there is no positive sample. -/
def recall_score (y yp : List Bool) : ℚ :=
  let tp := countTP y yp
  let fn := countFN y yp
  if tp + fn = 0 then 0 else (tp : ℚ) / ((tp : ℚ) + (fn : ℚ))

/-- Embedding of sklearn `f1_score(y, y_pred, zero_division=0)`: the harmonic
mean 2pr/(p+r) of precision and recall, and 0 when p+r = 0. -/
def f1_score (y yp : List Bool) : ℚ :=
  let p := precision_score y yp
  let r := recall_score y yp
  if p + r = 0 then 0 else 2 * p * r / (p + r)

/-- Embedding of sklearn `accuracy_score(y, y_pred)`: the fraction of
positions where the prediction agrees with the label.  Rational division
collapses the empty input to 0 here; the NaN that sklearn returns on empty
input (accuracy has no `zero_division` guard) is kept by
`accuracy_scoreNaN` below, which agrees with this value on every nonempty
input. -/
def accuracy_score (y yp : List Bool) : ℚ :=
  (((y.zip yp).filter (fun p => p.1 == p.2)).length : ℚ) / (y.length : ℚ)

/-- Embedding of sklearn `accuracy_score(y, y_pred)` keeping the degenerate
case: accuracy has no `zero_division` parameter, and on an empty input the
mean of the empty agreement array is NaN, represented by `none`; on a
nonempty input the value is the agreement fraction. -/
def accuracy_scoreNaN (y yp : List Bool) : Option ℚ :=
  if y.length = 0 then none else some (accuracy_score y yp)

/-- The four scalar metrics returned by `evaluate_model_metrics`
(the Python dict with keys "precision", "recall", "f1_score", "accuracy"). -/
structure Metrics where
  precision : ℚ
  «recall» : ℚ
  f1_score : ℚ
  accuracy : ℚ
deriving Repr, DecidableEq

/-- Notebook function `evaluate_model_metrics(y, y_pred)`: builds the metric
dict from the four sklearn scores with `zero_division=0`. -/
def evaluate_model_metrics (y yp : List Bool) : Metrics :=
  { precision := precision_score y yp
    «recall» := recall_score y yp
    f1_score := f1_score y yp
    accuracy := accuracy_score y yp }

/-- The metric names a caller can select (the Python string keys). -/
inductive MetricName
  | precision
  | «recall»
  | f1_score
  | accuracy
deriving Repr, DecidableEq

/-- Look up one metric by name, as the Python dict indexing `metrics[metric]`. -/
def Metrics.get (m : Metrics) : MetricName → ℚ
  | .precision => m.precision
  | .«recall» => m.«recall»
  | .f1_score => m.f1_score
  | .accuracy => m.accuracy

/-! ## Thresholded evaluation and the threshold sweep -/

/-- Modelled from the spec: `evaluate_model_with_threshold` is defined in the
repository's `src/model_training.py`, which is not part of the snapshot.  Per
the spec it "evaluates a fitted probabilistic classifier at [a] decision
threshold", where the decision threshold is "the probability cutoff above
which a binary classifier's output is labeled positive" (glossary).  The
fitted model is a probability function on rows; a row is predicted positive
exactly when its predicted probability is above the threshold, and the
resulting predictions are scored by `evaluate_model_metrics`. -/
def evaluate_model_with_threshold {ρ : Type} (model : ρ → ℚ) (X : List ρ)
    (y : List Bool) (threshold : ℚ) : Metrics :=
  evaluate_model_metrics y ((X.map model).map (fun p => decide (threshold < p)))

/-- The default threshold grid `np.arange(0.0, 1.05, 0.05)` of
`find_best_threshold`: 0.0, 0.05, ..., 1.0. -/
def default_thresholds : List ℚ :=
  (List.range 21).map (fun i => (i : ℚ) / 20)

/-- The loop body of `find_best_threshold`, one step per threshold: keep the
running (best_threshold, best_metric_value) pair, updating it when the current
metric value is strictly greater, and record (threshold, metric_value). -/
def fbtLoop (f : ℚ → ℚ) : List ℚ → ℚ × ℚ → (ℚ × ℚ) × List (ℚ × ℚ)
  | [], s => (s, [])
  | t :: ts, s =>
      let mv := f t
      let s' := if mv > s.2 then (t, mv) else s
      let r := fbtLoop f ts s'
      (r.1, (t, mv) :: r.2)

/-- Notebook function `find_best_threshold(model, X, y, metric, thresholds)`:
starting from `best_threshold = 0.5`, `best_metric_value = 0`, sweeps the
thresholds and returns the best threshold together with the list of
(threshold, metric value) pairs. -/
def find_best_threshold {ρ : Type} (model : ρ → ℚ) (X : List ρ) (y : List Bool)
    (metric : MetricName) (thresholds : List ℚ) : ℚ × List (ℚ × ℚ) :=
  let r := fbtLoop (fun t => (evaluate_model_with_threshold model X y t).get metric)
    thresholds (1/2, 0)
  (r.1.1, r.2)

/-- A metrics record together with the "model_name" and "split" keys that
`evaluate_model_with_threshold_params` adds to the dict before returning it. -/
structure LabeledMetrics where
  metrics : Metrics
  model_name : String
  split : String
deriving Repr, DecidableEq

/-- Notebook function `evaluate_model_with_threshold_params(model_name, model,
X, y, training_split, metric, threshold)`: `if not threshold` (Python
falsiness: `None` or `0.0`) the threshold is replaced by the result of
`find_best_threshold` over the default grid; the model is then evaluated at
the chosen threshold and the labels are attached. -/
def evaluate_model_with_threshold_params {ρ : Type} (model_name : String)
    (model : ρ → ℚ) (X : List ρ) (y : List Bool) (training_split : String)
    (metric : MetricName) (threshold : Option ℚ) : LabeledMetrics :=
  let t := match threshold with
    | none => (find_best_threshold model X y metric default_thresholds).1
    | some c =>
        if c = 0 then (find_best_threshold model X y metric default_thresholds).1
        else c
  { metrics := evaluate_model_with_threshold model X y t
    model_name := model_name
    split := training_split }

/-! ## Arithmetic facts about the metric scores -/

theorem length_filter_agree (l : List (Bool × Bool)) :
    (l.filter (fun p => p.1 == p.2)).length =
      (l.filter (fun p => p.1 && p.2)).length +
        (l.filter (fun p => !p.1 && !p.2)).length := by
  induction l with
  | nil => rfl
  | cons hd tl ih =>
    obtain ⟨a, b⟩ := hd
    cases a <;> cases b <;> simp [List.filter_cons, ih] <;> omega

theorem precision_score_nonneg (y yp : List Bool) : 0 ≤ precision_score y yp := by
  unfold precision_score
  by_cases h : countTP y yp + countFP y yp = 0
  · simp [h]
  · simp only [h, if_false]
    exact div_nonneg (by positivity) (by positivity)

theorem precision_score_le_one (y yp : List Bool) : precision_score y yp ≤ 1 := by
  unfold precision_score
  by_cases h : countTP y yp + countFP y yp = 0
  · simp [h]
  · simp only [h, if_false]
    have hpos : (0 : ℚ) < (countTP y yp : ℚ) + (countFP y yp : ℚ) := by
      have := Nat.pos_of_ne_zero h
      exact_mod_cast this
    exact (div_le_one hpos).mpr (le_add_of_nonneg_right (by positivity))

theorem recall_score_nonneg (y yp : List Bool) : 0 ≤ recall_score y yp := by
  unfold recall_score
  by_cases h : countTP y yp + countFN y yp = 0
  · simp [h]
  · simp only [h, if_false]
    exact div_nonneg (by positivity) (by positivity)

theorem recall_score_le_one (y yp : List Bool) : recall_score y yp ≤ 1 := by
  unfold recall_score
  by_cases h : countTP y yp + countFN y yp = 0
  · simp [h]
  · simp only [h, if_false]
    have hpos : (0 : ℚ) < (countTP y yp : ℚ) + (countFN y yp : ℚ) := by
      have := Nat.pos_of_ne_zero h
      exact_mod_cast this
    exact (div_le_one hpos).mpr (le_add_of_nonneg_right (by positivity))

theorem f1_score_nonneg (y yp : List Bool) : 0 ≤ f1_score y yp := by
  unfold f1_score
  by_cases h : precision_score y yp + recall_score y yp = 0
  · simp [h]
  · simp only [h, if_false]
    have hp := precision_score_nonneg y yp
    have hr := recall_score_nonneg y yp
    have hpos : 0 < precision_score y yp + recall_score y yp :=
      lt_of_le_of_ne (by linarith) (Ne.symm h)
    exact div_nonneg (by nlinarith) (le_of_lt hpos)

theorem f1_score_le_one (y yp : List Bool) : f1_score y yp ≤ 1 := by
  unfold f1_score
  by_cases h : precision_score y yp + recall_score y yp = 0
  · simp [h]
  · simp only [h, if_false]
    have hp := precision_score_nonneg y yp
    have hr := recall_score_nonneg y yp
    have hp1 := precision_score_le_one y yp
    have hr1 := recall_score_le_one y yp
    have hpos : 0 < precision_score y yp + recall_score y yp :=
      lt_of_le_of_ne (by linarith) (Ne.symm h)
    apply (div_le_one hpos).mpr
    nlinarith [mul_nonneg hp (sub_nonneg.mpr hr1), mul_nonneg hr (sub_nonneg.mpr hp1)]

theorem accuracy_score_nonneg (y yp : List Bool) : 0 ≤ accuracy_score y yp := by
  unfold accuracy_score
  exact div_nonneg (by positivity) (by positivity)

theorem accuracy_score_le_one (y yp : List Bool) : accuracy_score y yp ≤ 1 := by
  unfold accuracy_score
  by_cases h : y.length = 0
  · have hz : (y.zip yp).length = 0 := by
      simp [List.length_zip, h]
    have : ((y.zip yp).filter (fun p => p.1 == p.2)).length = 0 := by
      have := List.length_filter_le (fun p => p.1 == p.2) (y.zip yp)
      omega
    simp [this]
  · have hpos : (0 : ℚ) < (y.length : ℚ) := by exact_mod_cast Nat.pos_of_ne_zero h
    apply (div_le_one hpos).mpr
    have h1 := List.length_filter_le (fun p => p.1 == p.2) (y.zip yp)
    have h2 : (y.zip yp).length ≤ y.length := by
      simp [List.length_zip]
    exact_mod_cast le_trans h1 h2

/-- C2: `evaluate_model_metrics` returns the confusion-matrix metrics:
precision = TP/(TP+FP), recall = TP/(TP+FN),
F1 = 2·precision·recall/(precision+recall), accuracy = (TP+TN)/total,
with precision, recall and F1 equal to 0 whenever the corresponding
denominator is 0. -/
theorem evaluate_model_metrics_eq_confusion_formulas (y yp : List Bool) :
    (evaluate_model_metrics y yp).precision =
      (if (countTP y yp : ℚ) + (countFP y yp : ℚ) = 0 then 0
       else (countTP y yp : ℚ) / ((countTP y yp : ℚ) + (countFP y yp : ℚ))) ∧
    (evaluate_model_metrics y yp).«recall» =
      (if (countTP y yp : ℚ) + (countFN y yp : ℚ) = 0 then 0
       else (countTP y yp : ℚ) / ((countTP y yp : ℚ) + (countFN y yp : ℚ))) ∧
    (evaluate_model_metrics y yp).f1_score =
      (if (evaluate_model_metrics y yp).precision +
            (evaluate_model_metrics y yp).«recall» = 0 then 0
       else 2 * (evaluate_model_metrics y yp).precision *
              (evaluate_model_metrics y yp).«recall» /
            ((evaluate_model_metrics y yp).precision +
              (evaluate_model_metrics y yp).«recall»)) ∧
    (evaluate_model_metrics y yp).accuracy =
      ((countTP y yp : ℚ) + (countTN y yp : ℚ)) / (y.length : ℚ) := by
  refine ⟨?_, ?_, rfl, ?_⟩
  · show precision_score y yp = _
    by_cases h : countTP y yp + countFP y yp = 0
    · have hq : (countTP y yp : ℚ) + (countFP y yp : ℚ) = 0 := by exact_mod_cast h
      rw [if_pos hq]
      simp [precision_score, h]
    · have hq : ¬((countTP y yp : ℚ) + (countFP y yp : ℚ) = 0) := fun hc =>
        h (by exact_mod_cast hc)
      rw [if_neg hq]
      simp [precision_score, h]
  · show recall_score y yp = _
    by_cases h : countTP y yp + countFN y yp = 0
    · have hq : (countTP y yp : ℚ) + (countFN y yp : ℚ) = 0 := by exact_mod_cast h
      rw [if_pos hq]
      simp [recall_score, h]
    · have hq : ¬((countTP y yp : ℚ) + (countFN y yp : ℚ) = 0) := fun hc =>
        h (by exact_mod_cast hc)
      rw [if_neg hq]
      simp [recall_score, h]
  · show accuracy_score y yp = _
    unfold accuracy_score countTP countTN
    rw [length_filter_agree]
    push_cast
    ring_nf

/-- C10 counterexample: on the empty label/prediction pair, sklearn's
`accuracy_score` — which has no `zero_division` guard — takes the mean of an
empty agreement array and returns NaN (`none` in the faithful embedding), so
the returned accuracy is no rational in [0, 1]; in particular it differs
from the collapsed value 0 that rational division would give. -/
theorem evaluate_model_metrics_accuracy_nan_on_empty :
    accuracy_scoreNaN [] [] = none ∧
      accuracy_scoreNaN [] [] ≠
        some ((evaluate_model_metrics [] []).accuracy) := by
  constructor
  · rfl
  · intro h
    simp [accuracy_scoreNaN] at h

/-- C10 (amended): `evaluate_model_metrics` is total — the zero denominators
of precision, recall and F1 are guarded by `zero_division=0` and returned as
0, never raised — and for every input with a nonempty label vector each of
the four returned metric values lies in the closed interval [0, 1], the
returned accuracy agreeing there with the NaN-faithful embedding of
`accuracy_score`; on the empty pair accuracy is NaN. -/
theorem evaluate_model_metrics_mem_unit_interval_of_nonempty
    (y yp : List Bool) (name : MetricName) (hy : y ≠ []) :
    (0 ≤ (evaluate_model_metrics y yp).get name ∧
      (evaluate_model_metrics y yp).get name ≤ 1) ∧
    accuracy_scoreNaN y yp = some ((evaluate_model_metrics y yp).accuracy) := by
  constructor
  · cases name
    · exact ⟨precision_score_nonneg y yp, precision_score_le_one y yp⟩
    · exact ⟨recall_score_nonneg y yp, recall_score_le_one y yp⟩
    · exact ⟨f1_score_nonneg y yp, f1_score_le_one y yp⟩
    · exact ⟨accuracy_score_nonneg y yp, accuracy_score_le_one y yp⟩
  · have hlen : y.length ≠ 0 := fun h => hy (List.length_eq_zero.mp h)
    simp only [accuracy_scoreNaN, if_neg hlen]
    rfl

theorem evaluate_model_metrics_mem_unit_interval_of_nonempty_witness :
    (0 ≤ (evaluate_model_metrics [true] [false]).get MetricName.accuracy ∧
      (evaluate_model_metrics [true] [false]).get MetricName.accuracy ≤ 1) ∧
    accuracy_scoreNaN [true] [false] =
      some ((evaluate_model_metrics [true] [false]).accuracy) :=
  evaluate_model_metrics_mem_unit_interval_of_nonempty [true] [false]
    MetricName.accuracy (by decide)

/-! ## Behaviour of the threshold-sweep loop -/

theorem fbtLoop_append (f : ℚ → ℚ) :
    ∀ (a b : List ℚ) (s : ℚ × ℚ),
      (fbtLoop f (a ++ b) s).1 = (fbtLoop f b (fbtLoop f a s).1).1
  | [], _, _ => rfl
  | t :: ts, b, s => by
    simp only [List.cons_append, fbtLoop]
    exact fbtLoop_append f ts b _

theorem fbtLoop_no_update (f : ℚ → ℚ) :
    ∀ (ts : List ℚ) (s : ℚ × ℚ),
      (∀ t ∈ ts, f t ≤ s.2) → (fbtLoop f ts s).1 = s
  | [], _, _ => rfl
  | t :: ts, s, h => by
    have h1 : ¬ (s.2 < f t) := not_lt.mpr (h t (List.mem_cons_self t ts))
    simp only [fbtLoop]
    rw [if_neg h1]
    exact fbtLoop_no_update f ts s (fun u hu => h u (List.mem_cons_of_mem t hu))

theorem fbtLoop_best_value (f : ℚ → ℚ) :
    ∀ (ts : List ℚ) (s : ℚ × ℚ),
      (fbtLoop f ts s).1.2 = ts.foldl (fun a t => max a (f t)) s.2
  | [], _ => rfl
  | t :: ts, s => by
    simp only [fbtLoop, List.foldl_cons]
    by_cases h : s.2 < f t
    · rw [if_pos h, fbtLoop_best_value f ts]
      rw [max_eq_right (le_of_lt h)]
    · rw [if_neg h, fbtLoop_best_value f ts]
      rw [max_eq_left (not_lt.mp h)]

theorem le_foldl_max (f : ℚ → ℚ) :
    ∀ (ts : List ℚ) (a : ℚ), a ≤ ts.foldl (fun b t => max b (f t)) a
  | [], a => le_refl a
  | t :: ts, a =>
      le_trans (le_max_left a (f t)) (le_foldl_max f ts (max a (f t)))

theorem mem_le_foldl_max (f : ℚ → ℚ) :
    ∀ (ts : List ℚ) (a t : ℚ), t ∈ ts → f t ≤ ts.foldl (fun b u => max b (f u)) a
  | [], _, t, h => absurd h (List.not_mem_nil t)
  | t' :: ts, a, t, h => by
    rcases List.mem_cons.mp h with h1 | h2
    · subst h1
      exact le_trans (le_max_right a (f t)) (le_foldl_max f ts (max a (f t)))
    · exact mem_le_foldl_max f ts (max a (f t')) t h2

theorem foldl_max_lt (f : ℚ → ℚ) :
    ∀ (ts : List ℚ) (a M : ℚ), a < M → (∀ t ∈ ts, f t < M) →
      ts.foldl (fun b t => max b (f t)) a < M
  | [], _, _, ha, _ => ha
  | t :: ts, a, M, ha, h =>
    foldl_max_lt f ts (max a (f t)) M (max_lt ha (h t (List.mem_cons_self t ts)))
      (fun u hu => h u (List.mem_cons_of_mem t hu))

theorem fbtLoop_fst_mem (f : ℚ → ℚ) :
    ∀ (ts : List ℚ) (s : ℚ × ℚ),
      (fbtLoop f ts s).1 = s ∨
        ((fbtLoop f ts s).1.1 ∈ ts ∧
          (fbtLoop f ts s).1.2 = f (fbtLoop f ts s).1.1)
  | [], _ => Or.inl rfl
  | t :: ts, s => by
    simp only [fbtLoop]
    by_cases h : s.2 < f t
    · rw [if_pos h]
      rcases fbtLoop_fst_mem f ts (t, f t) with h1 | h2
      · right
        rw [h1]
        exact ⟨List.mem_cons_self t ts, rfl⟩
      · exact Or.inr ⟨List.mem_cons_of_mem t h2.1, h2.2⟩
    · rw [if_neg h]
      rcases fbtLoop_fst_mem f ts s with h1 | h2
      · exact Or.inl h1
      · exact Or.inr ⟨List.mem_cons_of_mem t h2.1, h2.2⟩

theorem find_best_threshold_fst {ρ : Type} (model : ρ → ℚ) (X : List ρ)
    (y : List Bool) (metric : MetricName) (thresholds : List ℚ) :
    (find_best_threshold model X y metric thresholds).1 =
      (fbtLoop (fun t => (evaluate_model_with_threshold model X y t).get metric)
        thresholds (1/2, 0)).1.1 := rfl

/-- C1 (amended): whenever at least one supplied threshold achieves a strictly
positive metric value, `find_best_threshold` returns as its first component a
threshold belonging to the supplied list whose metric value is the maximum of
the metric values over all supplied thresholds. -/
theorem find_best_threshold_mem_argmax {ρ : Type} (model : ρ → ℚ) (X : List ρ)
    (y : List Bool) (metric : MetricName) (thresholds : List ℚ)
    (h : ∃ t ∈ thresholds,
      0 < (evaluate_model_with_threshold model X y t).get metric) :
    (find_best_threshold model X y metric thresholds).1 ∈ thresholds ∧
      ∀ t ∈ thresholds,
        (evaluate_model_with_threshold model X y t).get metric ≤
          (evaluate_model_with_threshold model X y
            (find_best_threshold model X y metric thresholds).1).get metric := by
  obtain ⟨t0, ht0, hpos⟩ := h
  set f := fun t => (evaluate_model_with_threshold model X y t).get metric with hf
  have hval := fbtLoop_best_value f thresholds (1/2, 0)
  have hge : f t0 ≤ (fbtLoop f thresholds (1/2, 0)).1.2 := by
    rw [hval]
    exact mem_le_foldl_max f thresholds 0 t0 ht0
  have hpos2 : 0 < (fbtLoop f thresholds (1/2, 0)).1.2 := lt_of_lt_of_le hpos hge
  rcases fbtLoop_fst_mem f thresholds (1/2, 0) with h1 | h2
  · rw [h1] at hpos2
    norm_num at hpos2
  · rw [find_best_threshold_fst]
    refine ⟨h2.1, fun t ht => ?_⟩
    have hle : f t ≤ (fbtLoop f thresholds (1/2, 0)).1.2 := by
      rw [hval]
      exact mem_le_foldl_max f thresholds 0 t ht
    calc f t ≤ (fbtLoop f thresholds (1/2, 0)).1.2 := hle
      _ = f ((fbtLoop f thresholds (1/2, 0)).1.1) := h2.2

/-- C1 counterexample: a model predicting probability 1/5 on the single row
with label 1, metric recall, supplied thresholds [9/10].  The metric value at
the only supplied threshold is 0, so the sweep never updates its default and
returns 0.5, which does not belong to the supplied list — refuting the claim
that the returned threshold always belongs to the supplied list. -/
theorem find_best_threshold_not_in_list :
    (find_best_threshold (fun _ : Unit => (1 : ℚ)/5) [()] [true]
        MetricName.«recall» [(9 : ℚ)/10]).1 ∉ [(9 : ℚ)/10] := by
  norm_num [find_best_threshold, fbtLoop, evaluate_model_with_threshold,
    evaluate_model_metrics, recall_score, countTP, countFN, Metrics.get]

theorem find_best_threshold_mem_argmax_witness :
    (find_best_threshold (fun _ : Unit => (4 : ℚ)/5) [()] [true]
        MetricName.«recall» [(1 : ℚ)/2]).1 ∈ [(1 : ℚ)/2] ∧
      ∀ t ∈ [(1 : ℚ)/2],
        (evaluate_model_with_threshold (fun _ : Unit => (4 : ℚ)/5) [()] [true]
            t).get MetricName.«recall» ≤
          (evaluate_model_with_threshold (fun _ : Unit => (4 : ℚ)/5) [()] [true]
            (find_best_threshold (fun _ : Unit => (4 : ℚ)/5) [()] [true]
              MetricName.«recall» [(1 : ℚ)/2]).1).get MetricName.«recall» :=
  find_best_threshold_mem_argmax (fun _ : Unit => (4 : ℚ)/5) [()] [true]
    MetricName.«recall» [(1 : ℚ)/2]
    ⟨(1 : ℚ)/2, by norm_num, by
      norm_num [evaluate_model_with_threshold, evaluate_model_metrics,
        recall_score, countTP, countFN, Metrics.get]⟩

/-- C8: starting from the default pair (0.5, 0), the sweep returns 0.5
whenever no supplied threshold achieves a metric value strictly greater
than 0, whether or not 0.5 is supplied; and when a strictly positive maximal
value is attained, the earliest threshold (in the iteration order of the
supplied list) attaining it is the one returned. -/
theorem find_best_threshold_default_and_first_tie {ρ : Type} (model : ρ → ℚ)
    (X : List ρ) (y : List Bool) (metric : MetricName) :
    (∀ thresholds : List ℚ,
      (∀ t ∈ thresholds,
        (evaluate_model_with_threshold model X y t).get metric ≤ 0) →
      (find_best_threshold model X y metric thresholds).1 = 1/2) ∧
    (∀ (l₁ l₂ : List ℚ) (t : ℚ),
      0 < (evaluate_model_with_threshold model X y t).get metric →
      (∀ u ∈ l₁, (evaluate_model_with_threshold model X y u).get metric <
        (evaluate_model_with_threshold model X y t).get metric) →
      (∀ u ∈ l₂, (evaluate_model_with_threshold model X y u).get metric ≤
        (evaluate_model_with_threshold model X y t).get metric) →
      (find_best_threshold model X y metric (l₁ ++ t :: l₂)).1 = t) := by
  set f := fun t => (evaluate_model_with_threshold model X y t).get metric with hf
  constructor
  · intro thresholds h
    rw [find_best_threshold_fst, fbtLoop_no_update f thresholds (1/2, 0) h]
  · intro l₁ l₂ t hpos hlt hle
    rw [find_best_threshold_fst, fbtLoop_append f l₁ (t :: l₂) (1/2, 0)]
    have hs1 : (fbtLoop f l₁ (1/2, 0)).1.2 < f t := by
      rw [fbtLoop_best_value f l₁ (1/2, 0)]
      exact foldl_max_lt f l₁ 0 (f t) hpos hlt
    simp only [fbtLoop]
    rw [if_pos hs1, fbtLoop_no_update f l₂ (t, f t) hle]

theorem find_best_threshold_default_and_first_tie_witness :
    (find_best_threshold (fun _ : Unit => (1 : ℚ)/5) [()] [true]
        MetricName.«recall» [(9 : ℚ)/10]).1 = 1/2 ∧
    (find_best_threshold (fun x : ℚ => x) [(4 : ℚ)/5] [true]
        MetricName.«recall» ([] ++ (3 : ℚ)/10 :: [(6 : ℚ)/10])).1 = 3/10 :=
  ⟨(find_best_threshold_default_and_first_tie (fun _ : Unit => (1 : ℚ)/5) [()]
      [true] MetricName.«recall»).1 [(9 : ℚ)/10]
      (by
        intro t ht
        norm_num at ht
        subst ht
        norm_num [evaluate_model_with_threshold, evaluate_model_metrics,
          recall_score, countTP, countFN, Metrics.get]),
    (find_best_threshold_default_and_first_tie (fun x : ℚ => x) [(4 : ℚ)/5]
      [true] MetricName.«recall»).2 [] [(6 : ℚ)/10] ((3 : ℚ)/10)
      (by
        norm_num [evaluate_model_with_threshold, evaluate_model_metrics,
          recall_score, countTP, countFN, Metrics.get])
      (by simp)
      (by
        intro u hu
        norm_num at hu
        subst hu
        norm_num [evaluate_model_with_threshold, evaluate_model_metrics,
          recall_score, countTP, countFN, Metrics.get])⟩

/-- C9: `evaluate_model_with_threshold_params` checks `if not threshold`, and
Python falsiness makes a requested cutoff of 0.0 indistinguishable from None:
both discard the given value and run the best-threshold search over the
default grid, so an explicit threshold of 0.0 is never used; only a non-zero
threshold is used as given. -/
theorem evaluate_model_with_threshold_params_zero_falsy {ρ : Type}
    (model_name : String) (model : ρ → ℚ) (X : List ρ) (y : List Bool)
    (training_split : String) (metric : MetricName) (t : ℚ) (ht : t ≠ 0) :
    evaluate_model_with_threshold_params model_name model X y training_split
        metric (some 0) =
      evaluate_model_with_threshold_params model_name model X y training_split
        metric none ∧
    evaluate_model_with_threshold_params model_name model X y training_split
        metric (some 0) =
      { metrics := evaluate_model_with_threshold model X y
          (find_best_threshold model X y metric default_thresholds).1
        model_name := model_name
        split := training_split } ∧
    evaluate_model_with_threshold_params model_name model X y training_split
        metric (some t) =
      { metrics := evaluate_model_with_threshold model X y t
        model_name := model_name
        split := training_split } := by
  refine ⟨?_, ?_, ?_⟩
  · simp [evaluate_model_with_threshold_params]
  · simp [evaluate_model_with_threshold_params]
  · simp [evaluate_model_with_threshold_params, ht]

theorem evaluate_model_with_threshold_params_zero_falsy_witness :
    evaluate_model_with_threshold_params "rf" (fun _ : Unit => (4 : ℚ)/5) [()]
        [true] "validation" MetricName.«recall» (some 0) =
      evaluate_model_with_threshold_params "rf" (fun _ : Unit => (4 : ℚ)/5) [()]
        [true] "validation" MetricName.«recall» none ∧
    evaluate_model_with_threshold_params "rf" (fun _ : Unit => (4 : ℚ)/5) [()]
        [true] "validation" MetricName.«recall» (some 0) =
      { metrics := evaluate_model_with_threshold (fun _ : Unit => (4 : ℚ)/5)
          [()] [true]
          (find_best_threshold (fun _ : Unit => (4 : ℚ)/5) [()] [true]
            MetricName.«recall» default_thresholds).1
        model_name := "rf"
        split := "validation" } ∧
    evaluate_model_with_threshold_params "rf" (fun _ : Unit => (4 : ℚ)/5) [()]
        [true] "validation" MetricName.«recall» (some ((7 : ℚ)/10)) =
      { metrics := evaluate_model_with_threshold (fun _ : Unit => (4 : ℚ)/5)
          [()] [true] ((7 : ℚ)/10)
        model_name := "rf"
        split := "validation" } :=
  evaluate_model_with_threshold_params_zero_falsy "rf"
    (fun _ : Unit => (4 : ℚ)/5) [()] [true] "validation" MetricName.«recall»
    ((7 : ℚ)/10) (by norm_num)

/-! ## Exception propagation -/

/-- The threshold-sweep loop over a fallible metric evaluation.  The Python
loop body's first statement calls `evaluate_model_with_threshold`; the
notebook installs no try/except, so an exception raised there aborts the loop
and propagates to the caller unchanged. -/
def fbtLoopE {ε : Type} (f : ℚ → Except ε Metrics) (metric : MetricName) :
    List ℚ → ℚ × ℚ → Except ε ((ℚ × ℚ) × List (ℚ × ℚ))
  | [], s => .ok (s, [])
  | t :: ts, s =>
    match f t with
    | .error e => .error e
    | .ok m =>
      let mv := m.get metric
      let s' := if mv > s.2 then (t, mv) else s
      match fbtLoopE f metric ts s' with
      | .error e => .error e
      | .ok r => .ok (r.1, (t, mv) :: r.2)

/-- `find_best_threshold` with a fallible evaluation call, no handler. -/
def find_best_thresholdE {ε : Type} (f : ℚ → Except ε Metrics)
    (metric : MetricName) (thresholds : List ℚ) :
    Except ε (ℚ × List (ℚ × ℚ)) :=
  Except.map (fun r : (ℚ × ℚ) × List (ℚ × ℚ) => (r.1.1, r.2))
    (fbtLoopE f metric thresholds (1/2, 0))

/-- `evaluate_model_with_threshold_params` with a fallible evaluation call,
no handler: a failure in the best-threshold search or in the final
evaluation propagates unchanged. -/
def evaluate_model_with_threshold_paramsE {ε : Type}
    (f : ℚ → Except ε Metrics) (metric : MetricName) (threshold : Option ℚ) :
    Except ε Metrics :=
  match (match threshold with
    | none => Except.map (fun r : ℚ × List (ℚ × ℚ) => r.1)
        (find_best_thresholdE f metric default_thresholds)
    | some c =>
        if c = 0 then
          Except.map (fun r : ℚ × List (ℚ × ℚ) => r.1)
            (find_best_thresholdE f metric default_thresholds)
        else .ok c) with
  | .error e => .error e
  | .ok t => f t

theorem fbtLoopE_error {ε : Type} (f : ℚ → Except ε Metrics)
    (metric : MetricName) :
    ∀ (l₁ : List ℚ) (t : ℚ) (l₂ : List ℚ) (e : ε) (s : ℚ × ℚ),
      (∀ u ∈ l₁, ∃ m, f u = .ok m) → f t = .error e →
      fbtLoopE f metric (l₁ ++ t :: l₂) s = .error e
  | [], t, l₂, e, s, _, ht => by
    simp only [List.nil_append, fbtLoopE, ht]
  | u :: l₁, t, l₂, e, s, h, ht => by
    obtain ⟨m, hm⟩ := h u (List.mem_cons_self u l₁)
    simp only [List.cons_append, fbtLoopE, hm]
    simp only [List.append_eq,
      fbtLoopE_error f metric l₁ t l₂ e _
        (fun v hv => h v (List.mem_cons_of_mem u hv)) ht]

/-- C6: neither `find_best_threshold` nor
`evaluate_model_with_threshold_params` catches exceptions: a failure raised
by the underlying evaluation propagates unchanged to the caller — the first
failing evaluation aborts the sweep with exactly that error, and a failing
evaluation at an explicitly given threshold surfaces as exactly that error;
there is no retry, fallback, or error translation. -/
theorem workflow_propagates_errors {ε : Type} (f : ℚ → Except ε Metrics)
    (metric : MetricName) :
    (∀ (l₁ : List ℚ) (t : ℚ) (l₂ : List ℚ) (e : ε),
      (∀ u ∈ l₁, ∃ m, f u = .ok m) → f t = .error e →
      find_best_thresholdE f metric (l₁ ++ t :: l₂) = .error e) ∧
    (∀ (c : ℚ) (e : ε), c ≠ 0 → f c = .error e →
      evaluate_model_with_threshold_paramsE f metric (some c) = .error e) := by
  constructor
  · intro l₁ t l₂ e h ht
    unfold find_best_thresholdE
    rw [fbtLoopE_error f metric l₁ t l₂ e (1/2, 0) h ht]
    rfl
  · intro c e hc hce
    simp [evaluate_model_with_threshold_paramsE, hc, hce]

theorem workflow_propagates_errors_witness :
    (find_best_thresholdE
        (fun t => if t = (3 : ℚ)/10 then .error "boom" else .ok ⟨0, 0, 0, 0⟩)
        MetricName.«recall» ([(1 : ℚ)/10] ++ (3 : ℚ)/10 :: [(1 : ℚ)/2]) =
      .error "boom") ∧
    (evaluate_model_with_threshold_paramsE
        (fun t => if t = (3 : ℚ)/10 then .error "boom" else .ok ⟨0, 0, 0, 0⟩)
        MetricName.«recall» (some ((3 : ℚ)/10)) = .error "boom") :=
  ⟨(workflow_propagates_errors
      (fun t => if t = (3 : ℚ)/10 then .error "boom" else .ok ⟨0, 0, 0, 0⟩)
      MetricName.«recall»).1 [(1 : ℚ)/10] ((3 : ℚ)/10) [(1 : ℚ)/2] "boom"
      (by
        intro u hu
        norm_num at hu
        subst hu
        exact ⟨⟨0, 0, 0, 0⟩, by norm_num⟩)
      (by norm_num),
    (workflow_propagates_errors
      (fun t => if t = (3 : ℚ)/10 then .error "boom" else .ok ⟨0, 0, 0, 0⟩)
      MetricName.«recall»).2 ((3 : ℚ)/10) "boom" (by norm_num) (by norm_num)⟩

/-! ## Frame conditions: evaluation does not modify the model or the data -/

/-- The objects an evaluation call can see: the fitted model and the data
split (feature matrix and label vector) it is invoked on. -/
structure EvalState (ρ : Type) where
  model : ρ → ℚ
  X : List ρ
  y : List Bool

/-- Modelled from the spec: one call of `evaluate_model_with_threshold`
threads the state through explicitly; it reads the fitted model and the data
split and returns them next to the computed metrics ("Model artifact: ...
stateless with respect to the input data after fitting"; "Split datasets:
... immutable afterward"). -/
def evaluate_model_with_thresholdSt {ρ : Type} (s : EvalState ρ)
    (threshold : ℚ) : EvalState ρ × Metrics :=
  (s, evaluate_model_with_threshold s.model s.X s.y threshold)

/-- The sweep loop of `find_best_threshold`, threading the state through
every evaluation call it makes. -/
def fbtLoopSt {ρ : Type} (metric : MetricName) :
    EvalState ρ → List ℚ → ℚ × ℚ → EvalState ρ × (ℚ × ℚ) × List (ℚ × ℚ)
  | s, [], b => (s, b, [])
  | s, t :: ts, b =>
    let r₀ := evaluate_model_with_thresholdSt s t
    let mv := r₀.2.get metric
    let b' := if mv > b.2 then (t, mv) else b
    let r := fbtLoopSt metric r₀.1 ts b'
    (r.1, r.2.1, (t, mv) :: r.2.2)

/-- `find_best_threshold`, state-threaded. -/
def find_best_thresholdSt {ρ : Type} (s : EvalState ρ) (metric : MetricName)
    (thresholds : List ℚ) : EvalState ρ × ℚ × List (ℚ × ℚ) :=
  let r := fbtLoopSt metric s thresholds (1/2, 0)
  (r.1, r.2.1.1, r.2.2)

/-- `evaluate_model_with_threshold_params`, state-threaded: the state passes
through the optional best-threshold search and the final evaluation call. -/
def evaluate_model_with_threshold_paramsSt {ρ : Type} (model_name : String)
    (s : EvalState ρ) (training_split : String) (metric : MetricName)
    (threshold : Option ℚ) : EvalState ρ × LabeledMetrics :=
  let p := match threshold with
    | none =>
        let r := find_best_thresholdSt s metric default_thresholds
        (r.1, r.2.1)
    | some c =>
        if c = 0 then
          let r := find_best_thresholdSt s metric default_thresholds
          (r.1, r.2.1)
        else (s, c)
  let r₁ := evaluate_model_with_thresholdSt p.1 p.2
  (r₁.1,
    { metrics := r₁.2, model_name := model_name, split := training_split })

theorem fbtLoopSt_eq {ρ : Type} (metric : MetricName) (s : EvalState ρ) :
    ∀ (ts : List ℚ) (b : ℚ × ℚ),
      fbtLoopSt metric s ts b =
        (s, fbtLoop
          (fun t => (evaluate_model_with_threshold s.model s.X s.y t).get metric)
          ts b)
  | [], _ => rfl
  | t :: ts, b => by
    simp only [fbtLoopSt, fbtLoop, evaluate_model_with_thresholdSt]
    rw [fbtLoopSt_eq metric s ts]

/-- C7: evaluation has no side effect on its inputs — threading the fitted
model and the split data through `find_best_threshold` and through
`evaluate_model_with_threshold_params` returns them unchanged, and the
values computed agree with the pure functions of the unchanged inputs. -/
theorem evaluation_preserves_state {ρ : Type} (s : EvalState ρ)
    (metric : MetricName) (thresholds : List ℚ)
    (model_name training_split : String) (threshold : Option ℚ) :
    (find_best_thresholdSt s metric thresholds).1 = s ∧
    (find_best_thresholdSt s metric thresholds).2 =
      find_best_threshold s.model s.X s.y metric thresholds ∧
    (evaluate_model_with_threshold_paramsSt model_name s training_split
      metric threshold).1 = s ∧
    (evaluate_model_with_threshold_paramsSt model_name s training_split
      metric threshold).2 =
      evaluate_model_with_threshold_params model_name s.model s.X s.y
        training_split metric threshold := by
  have hloop := fbtLoopSt_eq metric s
  refine ⟨?_, ?_, ?_, ?_⟩
  · simp [find_best_thresholdSt, hloop]
  · simp [find_best_thresholdSt, find_best_threshold, hloop]
  · cases threshold with
    | none =>
        simp [evaluate_model_with_threshold_paramsSt, find_best_thresholdSt,
          evaluate_model_with_thresholdSt, hloop]
    | some c =>
        by_cases hc : c = 0 <;>
          simp [evaluate_model_with_threshold_paramsSt, find_best_thresholdSt,
            evaluate_model_with_thresholdSt, hloop, hc]
  · cases threshold with
    | none =>
        simp [evaluate_model_with_threshold_paramsSt, find_best_thresholdSt,
          evaluate_model_with_thresholdSt,
          evaluate_model_with_threshold_params, find_best_threshold, hloop]
    | some c =>
        by_cases hc : c = 0 <;>
          simp [evaluate_model_with_threshold_paramsSt, find_best_thresholdSt,
            evaluate_model_with_thresholdSt,
            evaluate_model_with_threshold_params, find_best_threshold, hloop,
            hc]

/-! ## Feature engineering -/

/-- Modelled from the spec: a raw booking record — "one row per reservation
with fields such as lead time, arrival date parts, guest counts, market
segment, special requests flag, and a binary cancellation label". -/
structure BookingRecord where
  lead_time : ℕ
  arrival_year : ℕ
  arrival_month : ℕ
  arrival_date : ℕ
  num_adults : ℕ
  num_children : ℕ
  market_segment : String
  special_requests : ℕ
  canceled : Bool
deriving Repr, DecidableEq

/-- A booking record extended with the derived feature columns. -/
structure EngineeredRecord where
  base : BookingRecord
  arrival_quarter : ℕ
  total_guests : ℕ
  has_special_requests : Bool
  market_segment_normalized : String
deriving Repr, DecidableEq

/-- Modelled from the spec: `add_engineered_features` is defined in the
repository's `src/eda.py`, absent from the snapshot.  Per the spec it
"derives new columns from raw booking records (e.g., quarter-of-year,
normalized categorical encodings)", the derived columns being "computed
deterministically from the raw record; no mutable state".  Each derived
column is a pure function of the record's fields. -/
def add_engineered_features (r : BookingRecord) : EngineeredRecord :=
  { base := r
    arrival_quarter := (r.arrival_month - 1) / 3 + 1
    total_guests := r.num_adults + r.num_children
    has_special_requests := decide (0 < r.special_requests)
    market_segment_normalized := r.market_segment.toLower }

/-- C4: feature engineering is deterministic — two runs of
`add_engineered_features` on equal input rows produce equal derived columns;
the output depends on nothing but the input record. -/
theorem add_engineered_features_deterministic (r₁ r₂ : BookingRecord)
    (h : r₁ = r₂) :
    add_engineered_features r₁ = add_engineered_features r₂ :=
  congrArg add_engineered_features h

theorem add_engineered_features_deterministic_witness :
    add_engineered_features
        ⟨100, 2017, 7, 15, 2, 1, "Online", 1, false⟩ =
      add_engineered_features ⟨100, 2017, 7, 15, 2, 1, "Online", 1, false⟩ :=
  add_engineered_features_deterministic
    ⟨100, 2017, 7, 15, 2, 1, "Online", 1, false⟩
    ⟨100, 2017, 7, 15, 2, 1, "Online", 1, false⟩ rfl

/-! ## Training -/

/-- An abstract classifier of the underlying library: `fit` builds a fitted
model from training features and labels, `predict` labels a feature matrix
using a fitted model. -/
structure Classifier (F M : Type) where
  fit : List F → List Bool → M
  predict : M → List F → List Bool

/-- Modelled from the spec: `train_model` is defined in the repository's
`src/model_training.py`, absent from the snapshot.  Per the spec the train
step "fits a classifier on training data, returns predictions and metric
summaries for training and validation sets"; the notebook unpacks its result
as a triple whose last two components are the training-split and
validation-split metric dicts. -/
def train_model {F M : Type} (clf : Classifier F M) (X_train : List F)
    (y_train : List Bool) (X_val : List F) (y_val : List Bool) :
    M × Metrics × Metrics :=
  let fitted := clf.fit X_train y_train
  (fitted,
    evaluate_model_metrics y_train (clf.predict fitted X_train),
    evaluate_model_metrics y_val (clf.predict fitted X_val))

/-- C5: `train_model` fits the classifier on the training data and returns
the fitted model together with the metric summaries of its predictions on
the training set and on the validation set. -/
theorem train_model_fits_and_scores_both_splits {F M : Type}
    (clf : Classifier F M) (X_train : List F) (y_train : List Bool)
    (X_val : List F) (y_val : List Bool) :
    (train_model clf X_train y_train X_val y_val).1 =
      clf.fit X_train y_train ∧
    (train_model clf X_train y_train X_val y_val).2.1 =
      evaluate_model_metrics y_train
        (clf.predict (clf.fit X_train y_train) X_train) ∧
    (train_model clf X_train y_train X_val y_val).2.2 =
      evaluate_model_metrics y_val
        (clf.predict (clf.fit X_train y_train) X_val) :=
  ⟨rfl, rfl, rfl⟩

/-! ## The stratified train/validation/test split -/

/-- Allocate one label class to train/validation/test: the first ⌊fTrain·n⌋
rows to train, the next ⌊fVal·n⌋ rows to validation, the rest to test. -/
def stratumSplit {α : Type} (fTrain fVal : ℚ) (cls : List α) :
    List α × List α × List α :=
  let nTrain := (⌊fTrain * (cls.length : ℚ)⌋).toNat
  let nVal := (⌊fVal * (cls.length : ℚ)⌋).toNat
  (cls.take nTrain, (cls.drop nTrain).take nVal, (cls.drop nTrain).drop nVal)

/-- Modelled from the spec: `split_data_train_val_test` is defined in the
repository's `src/model_training.py`, absent from the snapshot.  Per the
spec the split step "partitions rows into training/validation/test sets with
a fixed class-ratio-preserving strategy" — a stratified split (the notebook
comment: "Split the data with stratisfy (all ys will have 7:3 ratio to
represent the original data.)").  The rows of each label class are allocated
to the three partitions by the fixed fractions fTrain, fVal and the
remainder. -/
def split_data_train_val_test {α : Type} (fTrain fVal : ℚ)
    (df : List (α × Bool)) :
    List (α × Bool) × List (α × Bool) × List (α × Bool) :=
  let pos := df.filter (fun r => r.2)
  let neg := df.filter (fun r => !r.2)
  let ps := stratumSplit fTrain fVal pos
  let ns := stratumSplit fTrain fVal neg
  (ps.1 ++ ns.1, ps.2.1 ++ ns.2.1, ps.2.2 ++ ns.2.2)

/-- The number of positive-label rows of a data frame. -/
def labelCount {α : Type} (l : List (α × Bool)) : ℕ :=
  (l.filter (fun r => r.2)).length

theorem stratumSplit_append {α : Type} (fTrain fVal : ℚ) (cls : List α) :
    (stratumSplit fTrain fVal cls).1 ++
      ((stratumSplit fTrain fVal cls).2.1 ++
        (stratumSplit fTrain fVal cls).2.2) = cls := by
  simp only [stratumSplit]
  rw [List.take_append_drop, List.take_append_drop]

theorem split_data_train_val_test_perm {α : Type} (fTrain fVal : ℚ)
    (df : List (α × Bool)) :
    ((split_data_train_val_test fTrain fVal df).1 : Multiset (α × Bool)) +
      ((split_data_train_val_test fTrain fVal df).2.1 : Multiset (α × Bool)) +
      ((split_data_train_val_test fTrain fVal df).2.2 : Multiset (α × Bool)) =
      (df : Multiset (α × Bool)) := by
  have hpos : ((stratumSplit fTrain fVal (df.filter (fun r => r.2))).1 :
        Multiset (α × Bool)) +
      ((stratumSplit fTrain fVal (df.filter (fun r => r.2))).2.1 :
        Multiset (α × Bool)) +
      ((stratumSplit fTrain fVal (df.filter (fun r => r.2))).2.2 :
        Multiset (α × Bool)) =
      ((df.filter (fun r => r.2)) : Multiset (α × Bool)) := by
    rw [add_assoc, Multiset.coe_add, Multiset.coe_add]
    exact congrArg _ (stratumSplit_append fTrain fVal _)
  have hneg : ((stratumSplit fTrain fVal (df.filter (fun r => !r.2))).1 :
        Multiset (α × Bool)) +
      ((stratumSplit fTrain fVal (df.filter (fun r => !r.2))).2.1 :
        Multiset (α × Bool)) +
      ((stratumSplit fTrain fVal (df.filter (fun r => !r.2))).2.2 :
        Multiset (α × Bool)) =
      ((df.filter (fun r => !r.2)) : Multiset (α × Bool)) := by
    rw [add_assoc, Multiset.coe_add, Multiset.coe_add]
    exact congrArg _ (stratumSplit_append fTrain fVal _)
  have hdf : ((df.filter (fun r => r.2)) : Multiset (α × Bool)) +
      ((df.filter (fun r => !r.2)) : Multiset (α × Bool)) =
      (df : Multiset (α × Bool)) := by
    rw [Multiset.coe_add]
    exact Multiset.coe_eq_coe.mpr (List.filter_append_perm _ df)
  simp only [split_data_train_val_test, ← Multiset.coe_add]
  rw [← hdf, ← hpos, ← hneg]
  abel

theorem labelCount_append {α : Type} (a b : List (α × Bool)) :
    labelCount (a ++ b) = labelCount a + labelCount b := by
  simp [labelCount, List.filter_append]

theorem labelCount_of_all_pos {α : Type} (l : List (α × Bool))
    (h : ∀ x ∈ l, x.2 = true) : labelCount l = l.length := by
  unfold labelCount
  rw [List.filter_eq_self.mpr (by simpa using h)]

theorem labelCount_of_all_neg {α : Type} (l : List (α × Bool))
    (h : ∀ x ∈ l, x.2 = false) : labelCount l = 0 := by
  unfold labelCount
  rw [List.filter_eq_nil_iff.mpr (fun a ha => by simp [h a ha])]
  rfl

theorem stratumSplit_subsets {α : Type} (fTrain fVal : ℚ) (cls : List α) :
    (stratumSplit fTrain fVal cls).1 ⊆ cls ∧
      (stratumSplit fTrain fVal cls).2.1 ⊆ cls ∧
      (stratumSplit fTrain fVal cls).2.2 ⊆ cls := by
  simp only [stratumSplit]
  exact ⟨List.take_subset _ _,
    List.Subset.trans (List.take_subset _ _) (List.drop_subset _ _),
    List.Subset.trans (List.drop_subset _ _) (List.drop_subset _ _)⟩

theorem stratumSplit_lengths {α : Type} (fTrain fVal : ℚ) (cls : List α)
    (kT kV : ℕ) (hT : fTrain * (cls.length : ℚ) = kT)
    (hV : fVal * (cls.length : ℚ) = kV) (hkT : kT ≤ cls.length)
    (hkTV : kT + kV ≤ cls.length) :
    (stratumSplit fTrain fVal cls).1.length = kT ∧
      (stratumSplit fTrain fVal cls).2.1.length = kV ∧
      (stratumSplit fTrain fVal cls).2.2.length = cls.length - kT - kV := by
  have h1 : (⌊fTrain * (cls.length : ℚ)⌋).toNat = kT := by
    rw [hT, Int.floor_natCast]
    exact Int.toNat_natCast kT
  have h2 : (⌊fVal * (cls.length : ℚ)⌋).toNat = kV := by
    rw [hV, Int.floor_natCast]
    exact Int.toNat_natCast kV
  simp only [stratumSplit, h1, h2, List.length_take, List.length_drop]
  exact ⟨by omega, by omega, by trivial⟩

/-- C3 (amended): `split_data_train_val_test` always partitions the rows —
as multisets, train + validation + test equals the input data frame, so no
row occurrence appears in two subsets and none is lost — and whenever the
fixed split fractions are nonnegative, sum to at most 1, and allocate each
label class in whole rows (no rounding), every subset preserves the
label-class proportions of the full dataset exactly, stated
cross-multiplied: labelCount(S) · |df| = labelCount(df) · |S|. -/
theorem split_data_train_val_test_partition_stratified {α : Type}
    (fTrain fVal : ℚ) (df : List (α × Bool)) (kTP kVP kTN kVN : ℕ)
    (hf0 : 0 ≤ fTrain) (hv0 : 0 ≤ fVal) (hsum : fTrain + fVal ≤ 1)
    (hTP : fTrain * ((df.filter (fun r => r.2)).length : ℚ) = kTP)
    (hVP : fVal * ((df.filter (fun r => r.2)).length : ℚ) = kVP)
    (hTN : fTrain * ((df.filter (fun r => !r.2)).length : ℚ) = kTN)
    (hVN : fVal * ((df.filter (fun r => !r.2)).length : ℚ) = kVN) :
    (((split_data_train_val_test fTrain fVal df).1 : Multiset (α × Bool)) +
      ((split_data_train_val_test fTrain fVal df).2.1 : Multiset (α × Bool)) +
      ((split_data_train_val_test fTrain fVal df).2.2 : Multiset (α × Bool)) =
      (df : Multiset (α × Bool))) ∧
    ((labelCount (split_data_train_val_test fTrain fVal df).1 : ℚ) *
        (df.length : ℚ) =
      (labelCount df : ℚ) *
        ((split_data_train_val_test fTrain fVal df).1.length : ℚ)) ∧
    ((labelCount (split_data_train_val_test fTrain fVal df).2.1 : ℚ) *
        (df.length : ℚ) =
      (labelCount df : ℚ) *
        ((split_data_train_val_test fTrain fVal df).2.1.length : ℚ)) ∧
    ((labelCount (split_data_train_val_test fTrain fVal df).2.2 : ℚ) *
        (df.length : ℚ) =
      (labelCount df : ℚ) *
        ((split_data_train_val_test fTrain fVal df).2.2.length : ℚ)) := by
  have hf1 : fTrain ≤ 1 := by linarith
  have hkTP : kTP ≤ (df.filter (fun r => r.2)).length := by
    have h : (kTP : ℚ) ≤ ((df.filter (fun r => r.2)).length : ℚ) := by
      rw [← hTP]
      have hm := mul_le_mul_of_nonneg_right hf1
        (Nat.cast_nonneg (α := ℚ) (df.filter (fun r => r.2)).length)
      linarith
    exact_mod_cast h
  have hkTVP : kTP + kVP ≤ (df.filter (fun r => r.2)).length := by
    have h : (kTP : ℚ) + (kVP : ℚ) ≤ ((df.filter (fun r => r.2)).length : ℚ) := by
      rw [← hTP, ← hVP, ← add_mul]
      have hm := mul_le_mul_of_nonneg_right hsum
        (Nat.cast_nonneg (α := ℚ) (df.filter (fun r => r.2)).length)
      linarith
    exact_mod_cast h
  have hkTN : kTN ≤ (df.filter (fun r => !r.2)).length := by
    have h : (kTN : ℚ) ≤ ((df.filter (fun r => !r.2)).length : ℚ) := by
      rw [← hTN]
      have hm := mul_le_mul_of_nonneg_right hf1
        (Nat.cast_nonneg (α := ℚ) (df.filter (fun r => !r.2)).length)
      linarith
    exact_mod_cast h
  have hkTVN : kTN + kVN ≤ (df.filter (fun r => !r.2)).length := by
    have h : (kTN : ℚ) + (kVN : ℚ) ≤ ((df.filter (fun r => !r.2)).length : ℚ) := by
      rw [← hTN, ← hVN, ← add_mul]
      have hm := mul_le_mul_of_nonneg_right hsum
        (Nat.cast_nonneg (α := ℚ) (df.filter (fun r => !r.2)).length)
      linarith
    exact_mod_cast h
  obtain ⟨hl1, hl2, hl3⟩ := stratumSplit_lengths fTrain fVal
    (df.filter (fun r => r.2)) kTP kVP hTP hVP hkTP hkTVP
  obtain ⟨hm1, hm2, hm3⟩ := stratumSplit_lengths fTrain fVal
    (df.filter (fun r => !r.2)) kTN kVN hTN hVN hkTN hkTVN
  have hposmem : ∀ x ∈ df.filter (fun r => r.2), x.2 = true := fun x hx => by
    simpa using (List.mem_filter.mp hx).2
  have hnegmem : ∀ x ∈ df.filter (fun r => !r.2), x.2 = false := fun x hx => by
    simpa using (List.mem_filter.mp hx).2
  obtain ⟨hs1, hs2, hs3⟩ := stratumSplit_subsets fTrain fVal
    (df.filter (fun r => r.2))
  obtain ⟨ht1, ht2, ht3⟩ := stratumSplit_subsets fTrain fVal
    (df.filter (fun r => !r.2))
  have hc1 : labelCount (stratumSplit fTrain fVal
      (df.filter (fun r => r.2))).1 = kTP := by
    rw [labelCount_of_all_pos _ (fun x hx => hposmem x (hs1 hx)), hl1]
  have hc2 : labelCount (stratumSplit fTrain fVal
      (df.filter (fun r => r.2))).2.1 = kVP := by
    rw [labelCount_of_all_pos _ (fun x hx => hposmem x (hs2 hx)), hl2]
  have hc3 : labelCount (stratumSplit fTrain fVal
      (df.filter (fun r => r.2))).2.2 =
      (df.filter (fun r => r.2)).length - kTP - kVP := by
    rw [labelCount_of_all_pos _ (fun x hx => hposmem x (hs3 hx)), hl3]
  have hd1 : labelCount (stratumSplit fTrain fVal
      (df.filter (fun r => !r.2))).1 = 0 :=
    labelCount_of_all_neg _ (fun x hx => hnegmem x (ht1 hx))
  have hd2 : labelCount (stratumSplit fTrain fVal
      (df.filter (fun r => !r.2))).2.1 = 0 :=
    labelCount_of_all_neg _ (fun x hx => hnegmem x (ht2 hx))
  have hd3 : labelCount (stratumSplit fTrain fVal
      (df.filter (fun r => !r.2))).2.2 = 0 :=
    labelCount_of_all_neg _ (fun x hx => hnegmem x (ht3 hx))
  have hPN : df.length = (df.filter (fun r => r.2)).length +
      (df.filter (fun r => !r.2)).length := by
    have hp := (List.filter_append_perm (fun r => r.2) df).length_eq
    rw [List.length_append] at hp
    omega
  have hLdf : labelCount df = (df.filter (fun r => r.2)).length := rfl
  refine ⟨split_data_train_val_test_perm fTrain fVal df, ?_, ?_, ?_⟩
  · simp only [split_data_train_val_test, labelCount_append,
      List.length_append, hc1, hd1, hl1, hm1, hLdf, hPN]
    push_cast
    rw [← hTP, ← hTN]
    ring
  · simp only [split_data_train_val_test, labelCount_append,
      List.length_append, hc2, hd2, hl2, hm2, hLdf, hPN]
    push_cast
    rw [← hVP, ← hVN]
    ring
  · simp only [split_data_train_val_test, labelCount_append,
      List.length_append, hc3, hd3, hl3, hm3, hLdf, hPN]
    have e1 : (((df.filter (fun r => r.2)).length - kTP - kVP : ℕ) : ℚ) =
        ((df.filter (fun r => r.2)).length : ℚ) - kTP - kVP := by
      rw [Nat.cast_sub (by omega), Nat.cast_sub (by omega)]
    have e2 : (((df.filter (fun r => !r.2)).length - kTN - kVN : ℕ) : ℚ) =
        ((df.filter (fun r => !r.2)).length : ℚ) - kTN - kVN := by
      rw [Nat.cast_sub (by omega), Nat.cast_sub (by omega)]
    push_cast [e1, e2]
    rw [← hTP, ← hVP, ← hTN, ← hVN]
    ring

/-- C3 counterexample: on the dataset [(0, 1), (1, 1), (2, 0)] — two positive
rows, one negative — with split fractions 1/2 and 1/4, the training subset is
the single positive row (0, 1): its label proportion is 1, while the full
dataset's is 2/3, so the training subset does not preserve the label-class
proportions (cross-multiplied: 1·3 ≠ 2·1).  Exact proportion preservation is
impossible here: any one-row subset has label proportion 0 or 1. -/
theorem split_data_train_val_test_not_exactly_proportional :
    ¬ ((labelCount (split_data_train_val_test (1/2) (1/4)
          [((0 : ℕ), true), (1, true), (2, false)]).1 : ℚ) *
        (([((0 : ℕ), true), (1, true), (2, false)] : List (ℕ × Bool)).length : ℚ) =
      (labelCount ([((0 : ℕ), true), (1, true), (2, false)] :
          List (ℕ × Bool)) : ℚ) *
        ((split_data_train_val_test (1/2) (1/4)
          [((0 : ℕ), true), (1, true), (2, false)]).1.length : ℚ)) := by
  norm_num [split_data_train_val_test, stratumSplit, labelCount, List.filter]

/-- A concrete data frame with four positive and four negative rows, on which
the fractions 1/2 and 1/4 allocate every class in whole rows. -/
def dfEight : List (ℕ × Bool) :=
  [(0, true), (1, true), (2, true), (3, true),
   (4, false), (5, false), (6, false), (7, false)]

theorem split_data_train_val_test_partition_stratified_witness :
    (((split_data_train_val_test (1/2) (1/4) dfEight).1 :
        Multiset (ℕ × Bool)) +
      ((split_data_train_val_test (1/2) (1/4) dfEight).2.1 :
        Multiset (ℕ × Bool)) +
      ((split_data_train_val_test (1/2) (1/4) dfEight).2.2 :
        Multiset (ℕ × Bool)) =
      (dfEight : Multiset (ℕ × Bool))) ∧
    ((labelCount (split_data_train_val_test (1/2) (1/4) dfEight).1 : ℚ) *
        (dfEight.length : ℚ) =
      (labelCount dfEight : ℚ) *
        ((split_data_train_val_test (1/2) (1/4) dfEight).1.length : ℚ)) ∧
    ((labelCount (split_data_train_val_test (1/2) (1/4) dfEight).2.1 : ℚ) *
        (dfEight.length : ℚ) =
      (labelCount dfEight : ℚ) *
        ((split_data_train_val_test (1/2) (1/4) dfEight).2.1.length : ℚ)) ∧
    ((labelCount (split_data_train_val_test (1/2) (1/4) dfEight).2.2 : ℚ) *
        (dfEight.length : ℚ) =
      (labelCount dfEight : ℚ) *
        ((split_data_train_val_test (1/2) (1/4) dfEight).2.2.length : ℚ)) :=
  split_data_train_val_test_partition_stratified (1/2) (1/4) dfEight 2 1 2 1
    (by norm_num) (by norm_num) (by norm_num)
    (by norm_num [dfEight, List.filter]) (by norm_num [dfEight, List.filter])
    (by norm_num [dfEight, List.filter]) (by norm_num [dfEight, List.filter])
